import Mathlib

/-!
Shallow embedding of the two browser CRUD clients of this repository:
the books client (src/unnamed/part_000) and the users client (src/app.js).

Modelling conventions:
* The DOM table body is a list of rows, each row the list of its cell texts.
* Input elements are string-valued fields of the module state.
* `alert`, `console.error`/`console.log` and issued `fetch` requests are
  recorded in append-only logs in the state.
* A `fetch` call's outcome is supplied by the environment as a `Fetch` value:
  `netErr` (the fetch promise rejects), or `resp ok body` where `ok` is
  `response.ok` (2xx) and `body` is the result of `response.json()` when it
  is called: `none` means `.json()` throws (malformed JSON), `some j` the
  parsed JSON value.
* `confirm` dialogs are supplied as a `Bool` argument.
* Browser-specific error-message texts (network failure, JSON parse failure)
  are represented by fixed stand-in strings; no claim depends on their text.
-/

/-- JSON values, the result of a successful `response.json()`. -/
inductive JVal where
  | jnull
  | jbool (b : Bool)
  | jnum (n : Int)
  | jstr (s : String)
  | jarr (elems : List JVal)
  | jobj (fields : List (String × JVal))

/-- Property lookup on a JSON value, as JS `o.k`: `none` is `undefined`.
JSON.parse keeps the last of duplicate keys, hence the `foldl`. -/
def JVal.getField : JVal → String → Option JVal
  | .jobj fs, k => fs.foldl (fun acc p => if p.1 = k then some p.2 else acc) none
  | _, _ => none

/-- JS truthiness of a JSON value. -/
def JVal.truthy : JVal → Bool
  | .jnull => false
  | .jbool b => b
  | .jnum n => decide (n ≠ 0)
  | .jstr s => decide (s ≠ "")
  | .jarr _ => true
  | .jobj _ => true

/-- String conversion of a JSON value as used in JS template interpolation.
Arrays and objects are abbreviated; no claim depends on their text. -/
def JVal.toDisplay : JVal → String
  | .jnull => "null"
  | .jbool b => if b then "true" else "false"
  | .jnum n => toString n
  | .jstr s => s
  | .jarr _ => "[array]"
  | .jobj _ => "[object Object]"

/-- Interpolation of a possibly-undefined property, as in `${book.title}`. -/
def jDisp : Option JVal → String
  | none => "undefined"
  | some v => v.toDisplay

/-- JS `err.detail || dflt`: the `detail` field when truthy, else the default. -/
def errDetail (j : JVal) (dflt : String) : String :=
  match j.getField "detail" with
  | some d => if d.truthy then d.toDisplay else dflt
  | none => dflt

/-- An HTTP request as issued by `fetch(url, opts)`. -/
structure Request where
  url : String
  method : String
  body : Option String
  deriving DecidableEq

/-- The environment's answer to one `fetch` call. -/
inductive Fetch where
  | netErr
  | resp (ok : Bool) (body : Option JVal)

/-- The three failure modes of the spec's error taxonomy: network failure,
non-2xx status, and (when the body is read) malformed JSON. -/
def Fetch.isFail : Fetch → Bool
  | .netErr => true
  | .resp ok body => !ok || body.isNone

/-- Stand-in for the browser's network-failure error message. -/
def netFailMsg : String := "Failed to fetch"

/-- Stand-in for the browser's JSON-parse error message. -/
def parseFailMsg : String := "Unexpected end of JSON input"

/-- Stand-in for the TypeError thrown by `xs.forEach` on a non-array. -/
def forEachFailMsg : String := "forEach is not a function"

/- ---------- JSON.stringify for the request bodies ---------- -/

/-- One hex digit, uppercase. -/
def hexDigitChar (n : Nat) : Char :=
  if n < 10 then Char.ofNat (48 + n) else Char.ofNat (55 + n)

/-- JSON string escaping as JSON.stringify performs it. -/
def jsonEscapeChar (c : Char) : String :=
  if c = Char.ofNat 34 then "\\\""
  else if c = Char.ofNat 92 then "\\\\"
  else if c = Char.ofNat 10 then "\\n"
  else if c = Char.ofNat 13 then "\\r"
  else if c = Char.ofNat 9 then "\\t"
  else if c = Char.ofNat 8 then "\\b"
  else if c = Char.ofNat 12 then "\\f"
  else if c.toNat < 32 then
    String.mk ['\\', 'u', '0', '0', hexDigitChar (c.toNat / 16), hexDigitChar (c.toNat % 16)]
  else String.mk [c]

/-- A JSON string literal for `s`. -/
def jsonStrLit (s : String) : String :=
  "\"" ++ String.join (s.toList.map jsonEscapeChar) ++ "\""

/-- Body `JSON.stringify(\x7b title: title, author: author \x7d)`. -/
def stringifyBook (title author : String) : String :=
  "\x7b\"title\":" ++ jsonStrLit title ++ ",\"author\":" ++ jsonStrLit author ++ "\x7d"

/-- Body `JSON.stringify(\x7b name: name \x7d)`. -/
def stringifyUser (name : String) : String :=
  "\x7b\"name\":" ++ jsonStrLit name ++ "\x7d"

/- ---------- encodeURIComponent ---------- -/

/-- Characters encodeURIComponent leaves unescaped. -/
def encOK (c : Char) : Bool :=
  c.isAlphanum || c = '-' || c = '_' || c = '.' || c = '!' || c = '~' ||
  c = '*' || c.toNat = 39 || c = '(' || c = ')'

/-- UTF-8 bytes of one code point. -/
def utf8Bytes (c : Char) : List Nat :=
  let n := c.toNat
  if n < 128 then [n]
  else if n < 2048 then [192 + n / 64, 128 + n % 64]
  else if n < 65536 then [224 + n / 4096, 128 + n / 64 % 64, 128 + n % 64]
  else [240 + n / 262144, 128 + n / 4096 % 64, 128 + n / 64 % 64, 128 + n % 64]

/-- Percent-encoding of one byte, uppercase hex. -/
def byteHex (b : Nat) : String :=
  String.mk ['%', hexDigitChar (b / 16 % 16), hexDigitChar (b % 16)]

/-- JS `encodeURIComponent`. -/
def encodeURIComponent (s : String) : String :=
  String.join (s.toList.map fun c =>
    if encOK c then String.mk [c] else String.join ((utf8Bytes c).map byteHex))

/- ---------- JS parseInt (radix unspecified) ---------- -/

/-- JS `String.prototype.trim`: strip whitespace from both ends
(list-based, so it evaluates in the kernel). -/
def jsTrim (s : String) : String :=
  String.mk (((s.toList.dropWhile Char.isWhitespace).reverse.dropWhile Char.isWhitespace).reverse)



/-- Value of a decimal digit character. -/
def digitVal (c : Char) : Nat := c.toNat - 48

/-- Decimal number from the leading run of digits; `none` when there is none. -/
def decDigits (cs : List Char) : Option Nat :=
  let ds := cs.takeWhile Char.isDigit
  if ds.isEmpty then none
  else some (ds.foldl (fun acc c => acc * 10 + digitVal c) 0)

/-- ASCII hex digit test. -/
def isHexDigitChar (c : Char) : Bool :=
  c.isDigit || (97 ≤ c.toNat && c.toNat ≤ 102) || (65 ≤ c.toNat && c.toNat ≤ 70)

/-- Value of a hex digit character. -/
def hexVal (c : Char) : Nat :=
  if c.isDigit then c.toNat - 48
  else if 97 ≤ c.toNat then c.toNat - 87
  else c.toNat - 55

/-- Hex number from the leading run of hex digits. -/
def hexNum (cs : List Char) : Option Nat :=
  let ds := cs.takeWhile isHexDigitChar
  if ds.isEmpty then none
  else some (ds.foldl (fun acc c => acc * 16 + hexVal c) 0)

/-- Magnitude part of parseInt: a 0x/0X prefix switches to hex. -/
def parseUnsigned : List Char → Option Nat
  | '0' :: c :: rest =>
    if c = 'x' || c = 'X' then hexNum rest else decDigits ('0' :: c :: rest)
  | cs => decDigits cs

/-- JS `parseInt(s)` with unspecified radix: skip whitespace, optional sign,
optional hex prefix, leading digit run; `none` is NaN. -/
def parseIntJS (s : String) : Option Int :=
  match (jsTrim s).toList with
  | '-' :: rest => (parseUnsigned rest).map (fun n => -(n : Int))
  | '+' :: rest => (parseUnsigned rest).map (fun n => (n : Int))
  | cs => (parseUnsigned cs).map (fun n => (n : Int))

/-- JS `!id` for a parseInt result: NaN or zero. -/
def idFalsy (o : Option Int) : Prop := o = none ∨ o = some 0

instance : DecidablePred idFalsy := fun o => by unfold idFalsy; infer_instance

/- ==================== Books client (src/unnamed/part_000) ==================== -/

/-- Constant `API_URL = '/api/books'` of the books client. -/
def booksURL : String := "/api/books"

/-- The DOM and effect state of the books page. -/
structure BooksState where
  tableBody : List (List String)
  createTitle : String
  createAuthor : String
  updateId : String
  updateTitle : String
  updateAuthor : String
  searchInput : String
  alerts : List String
  logs : List String
  requests : List Request
  deriving DecidableEq

/-- The catch block shape shared by the books handlers: one console entry,
one alert. -/
def bCatch (logMsg alertMsg : String) (s : BooksState) : BooksState :=
  { s with logs := s.logs ++ [logMsg], alerts := s.alerts ++ [alertMsg] }

/-- The GET request for the full books collection. -/
def getBooksReq : Request := ⟨booksURL, "GET", none⟩

/-- The row rendered for one record: `<td>id</td><td>title</td><td>author</td>`. -/
def bookRow (b : JVal) : List String :=
  [jDisp (b.getField "id"), jDisp (b.getField "title"), jDisp (b.getField "author")]

/-- Renderer `displayBooks(books)`: sets `tbody.innerHTML = ''` then `books.forEach`
appends one row per element. On a non-array the clear has already happened
when `.forEach` throws; the Bool reports that throw. -/
def displayBooks (books : JVal) (tbody : List (List String)) :
    List (List String) × Bool :=
  match books, tbody with
  | .jarr items, _ => (items.map bookRow, false)
  | _, _ => ([], true)

/-- Loader `loadBooks()`: GET the collection, render on success, catch otherwise. -/
def loadBooks (f : Fetch) (s : BooksState) : BooksState :=
  let s1 : BooksState := { s with requests := s.requests ++ [getBooksReq] }
  match f with
  | .netErr => bCatch ("Error loading books: " ++ netFailMsg) "Failed to load books" s1
  | .resp ok body =>
    if ok then
      match body with
      | none => bCatch ("Error loading books: " ++ parseFailMsg) "Failed to load books" s1
      | some j =>
        match displayBooks j s1.tableBody with
        | (tb, threw) =>
          if threw then
            bCatch ("Error loading books: " ++ forEachFailMsg) "Failed to load books"
              { s1 with tableBody := tb }
          else { s1 with tableBody := tb }
    else bCatch ("Error loading books: " ++ "Failed to fetch books") "Failed to load books" s1

/-- Handler `createBook()`: validate, POST, on success clear inputs, reload, alert. -/
def createBook (f1 f2 : Fetch) (s : BooksState) : BooksState :=
  let title := jsTrim s.createTitle
  let author := jsTrim s.createAuthor
  if title = "" ∨ author = "" then
    { s with alerts := s.alerts ++ ["Please enter both a book title and an author name"] }
  else
    let s1 : BooksState :=
      { s with requests := s.requests ++ [⟨booksURL, "POST", some (stringifyBook title author)⟩] }
    match f1 with
    | .netErr =>
      bCatch ("Error creating book: " ++ netFailMsg) ("Failed to create book: " ++ netFailMsg) s1
    | .resp ok body =>
      if ok then
        match body with
        | none =>
          bCatch ("Error creating book: " ++ parseFailMsg) ("Failed to create book: " ++ parseFailMsg) s1
        | some newBook =>
          let s2 : BooksState :=
            { s1 with logs := s1.logs ++ ["Created book: " ++ newBook.toDisplay],
                      createTitle := "", createAuthor := "" }
          let s3 := loadBooks f2 s2
          { s3 with alerts := s3.alerts ++
              ["Book \"" ++ jDisp (newBook.getField "title") ++ "\" by " ++
               jDisp (newBook.getField "author") ++ " added!"] }
      else
        match body with
        | none =>
          bCatch ("Error creating book: " ++ parseFailMsg) ("Failed to create book: " ++ parseFailMsg) s1
        | some errJ =>
          let m := errDetail errJ "Failed to create book"
          bCatch ("Error creating book: " ++ m) ("Failed to create book: " ++ m) s1

/-- Handler `updateBook()`: validate id (parseInt, truthy) and fields, PUT, on
success clear inputs, reload, alert. -/
def updateBook (f1 f2 : Fetch) (s : BooksState) : BooksState :=
  let idv := parseIntJS s.updateId
  let title := jsTrim s.updateTitle
  let author := jsTrim s.updateAuthor
  if idFalsy idv ∨ title = "" ∨ author = "" then
    { s with alerts := s.alerts ++ ["Please enter the Book ID, new title, and new author"] }
  else
    let idn := idv.getD 0
    let s1 : BooksState :=
      { s with requests := s.requests ++
          [⟨booksURL ++ "/" ++ toString idn, "PUT", some (stringifyBook title author)⟩] }
    match f1 with
    | .netErr =>
      bCatch ("Error updating book: " ++ netFailMsg) ("Failed to update book: " ++ netFailMsg) s1
    | .resp ok body =>
      if ok then
        match body with
        | none =>
          bCatch ("Error updating book: " ++ parseFailMsg) ("Failed to update book: " ++ parseFailMsg) s1
        | some updated =>
          let s2 : BooksState :=
            { s1 with logs := s1.logs ++ ["Updated book: " ++ updated.toDisplay],
                      updateId := "", updateTitle := "", updateAuthor := "" }
          let s3 := loadBooks f2 s2
          { s3 with alerts := s3.alerts ++
              ["Book ID " ++ toString idn ++ " updated to \"" ++
               jDisp (updated.getField "title") ++ "\" by " ++
               jDisp (updated.getField "author")] }
      else
        match body with
        | none =>
          bCatch ("Error updating book: " ++ parseFailMsg) ("Failed to update book: " ++ parseFailMsg) s1
        | some errJ =>
          let m := errDetail errJ "Failed to update book"
          bCatch ("Error updating book: " ++ m) ("Failed to update book: " ++ m) s1

/-- Handler `deleteHighestBook()`: confirm, DELETE `/highest`, reload, alert. -/
def deleteHighestBook (confirmOk : Bool) (f1 f2 : Fetch) (s : BooksState) : BooksState :=
  if confirmOk then
    let s1 : BooksState :=
      { s with requests := s.requests ++ [⟨booksURL ++ "/highest", "DELETE", none⟩] }
    match f1 with
    | .netErr =>
      bCatch ("Error deleting book: " ++ netFailMsg) ("Failed to delete book: " ++ netFailMsg) s1
    | .resp ok body =>
      if ok then
        let s2 : BooksState := { s1 with logs := s1.logs ++ ["Deleted book with highest ID"] }
        let s3 := loadBooks f2 s2
        { s3 with alerts := s3.alerts ++ ["Book with the highest ID has been deleted!"] }
      else
        match body with
        | none =>
          bCatch ("Error deleting book: " ++ parseFailMsg) ("Failed to delete book: " ++ parseFailMsg) s1
        | some errJ =>
          let m := errDetail errJ "Failed to delete book"
          bCatch ("Error deleting book: " ++ m) ("Failed to delete book: " ++ m) s1
  else s

/-- Handler `searchBooks()`: validate non-empty query, GET with `?search=`, render. -/
def searchBooks (f : Fetch) (s : BooksState) : BooksState :=
  let query := jsTrim s.searchInput
  if query = "" then
    { s with alerts := s.alerts ++ ["Please enter a search term"] }
  else
    let s1 : BooksState :=
      { s with requests := s.requests ++
          [⟨booksURL ++ "?search=" ++ encodeURIComponent query, "GET", none⟩] }
    match f with
    | .netErr =>
      bCatch ("Error searching books: " ++ netFailMsg) ("Search failed: " ++ netFailMsg) s1
    | .resp ok body =>
      if ok then
        match body with
        | none =>
          bCatch ("Error searching books: " ++ parseFailMsg) ("Search failed: " ++ parseFailMsg) s1
        | some j =>
          match displayBooks j s1.tableBody with
          | (tb, threw) =>
            if threw then
              bCatch ("Error searching books: " ++ forEachFailMsg)
                ("Search failed: " ++ forEachFailMsg) { s1 with tableBody := tb }
            else { s1 with tableBody := tb }
      else
        bCatch ("Error searching books: " ++ "Search failed") ("Search failed: " ++ "Search failed") s1

/-- Handler `clearSearch()`: empty the search input, reload the full list. -/
def clearSearch (f : Fetch) (s : BooksState) : BooksState :=
  loadBooks f { s with searchInput := "" }

/- ==================== Users client (src/app.js) ==================== -/

/-- Constant `API_URL = '/api/users'` of the users client. -/
def usersURL : String := "/api/users"

/-- The DOM and effect state of the users page. -/
structure UsersState where
  tableBody : List (List String)
  createName : String
  updateId : String
  updateName : String
  deleteId : String
  alerts : List String
  logs : List String
  requests : List Request
  deriving DecidableEq

/-- The catch block shape shared by the users handlers. -/
def uCatch (logMsg alertMsg : String) (s : UsersState) : UsersState :=
  { s with logs := s.logs ++ [logMsg], alerts := s.alerts ++ [alertMsg] }

/-- The GET request for the full users collection. -/
def getUsersReq : Request := ⟨usersURL, "GET", none⟩

/-- The row rendered for one record: `<td>id</td><td>name</td>`. -/
def userRow (u : JVal) : List String :=
  [jDisp (u.getField "id"), jDisp (u.getField "name")]

/-- Renderer `displayUsers(users)`: clear the table body, then one row per element;
on a non-array the clear has happened when `.forEach` throws. -/
def displayUsers (users : JVal) (tbody : List (List String)) :
    List (List String) × Bool :=
  match users, tbody with
  | .jarr items, _ => (items.map userRow, false)
  | _, _ => ([], true)

/-- Loader `loadUsers()`: GET the collection, render on success, catch otherwise. -/
def loadUsers (f : Fetch) (s : UsersState) : UsersState :=
  let s1 : UsersState := { s with requests := s.requests ++ [getUsersReq] }
  match f with
  | .netErr => uCatch ("Error loading users: " ++ netFailMsg) "Failed to load users" s1
  | .resp ok body =>
    if ok then
      match body with
      | none => uCatch ("Error loading users: " ++ parseFailMsg) "Failed to load users" s1
      | some j =>
        match displayUsers j s1.tableBody with
        | (tb, threw) =>
          if threw then
            uCatch ("Error loading users: " ++ forEachFailMsg) "Failed to load users"
              { s1 with tableBody := tb }
          else { s1 with tableBody := tb }
    else uCatch ("Error loading users: " ++ "Failed to fetch users") "Failed to load users" s1

/-- Handler `createUser()`: validate, POST, on success clear input, reload, alert. -/
def createUser (f1 f2 : Fetch) (s : UsersState) : UsersState :=
  let name := jsTrim s.createName
  if name = "" then
    { s with alerts := s.alerts ++ ["Please enter a user name"] }
  else
    let s1 : UsersState :=
      { s with requests := s.requests ++ [⟨usersURL, "POST", some (stringifyUser name)⟩] }
    match f1 with
    | .netErr =>
      uCatch ("Error creating user: " ++ netFailMsg) ("Failed to create user: " ++ netFailMsg) s1
    | .resp ok body =>
      if ok then
        match body with
        | none =>
          uCatch ("Error creating user: " ++ parseFailMsg) ("Failed to create user: " ++ parseFailMsg) s1
        | some newUser =>
          let s2 : UsersState :=
            { s1 with logs := s1.logs ++ ["Created user: " ++ newUser.toDisplay],
                      createName := "" }
          let s3 := loadUsers f2 s2
          { s3 with alerts := s3.alerts ++
              ["User \"" ++ jDisp (newUser.getField "name") ++ "\" created successfully!"] }
      else
        match body with
        | none =>
          uCatch ("Error creating user: " ++ parseFailMsg) ("Failed to create user: " ++ parseFailMsg) s1
        | some errJ =>
          let m := errDetail errJ "Failed to create user"
          uCatch ("Error creating user: " ++ m) ("Failed to create user: " ++ m) s1

/-- Handler `updateUser()`: validate id (parseInt, truthy) and name, PUT, on success
clear inputs, reload, alert. -/
def updateUser (f1 f2 : Fetch) (s : UsersState) : UsersState :=
  let idv := parseIntJS s.updateId
  let name := jsTrim s.updateName
  if idFalsy idv ∨ name = "" then
    { s with alerts := s.alerts ++ ["Please enter both User ID and new name"] }
  else
    let idn := idv.getD 0
    let s1 : UsersState :=
      { s with requests := s.requests ++
          [⟨usersURL ++ "/" ++ toString idn, "PUT", some (stringifyUser name)⟩] }
    match f1 with
    | .netErr =>
      uCatch ("Error updating user: " ++ netFailMsg) ("Failed to update user: " ++ netFailMsg) s1
    | .resp ok body =>
      if ok then
        match body with
        | none =>
          uCatch ("Error updating user: " ++ parseFailMsg) ("Failed to update user: " ++ parseFailMsg) s1
        | some updated =>
          let s2 : UsersState :=
            { s1 with logs := s1.logs ++ ["Updated user: " ++ updated.toDisplay],
                      updateId := "", updateName := "" }
          let s3 := loadUsers f2 s2
          { s3 with alerts := s3.alerts ++
              ["User ID " ++ toString idn ++ " updated successfully!"] }
      else
        match body with
        | none =>
          uCatch ("Error updating user: " ++ parseFailMsg) ("Failed to update user: " ++ parseFailMsg) s1
        | some errJ =>
          let m := errDetail errJ "Failed to update user"
          uCatch ("Error updating user: " ++ m) ("Failed to update user: " ++ m) s1

/-- Handler `deleteUser()`: validate id, confirm, DELETE, on success clear input,
reload, alert.  No body is read on success. -/
def deleteUser (confirmOk : Bool) (f1 f2 : Fetch) (s : UsersState) : UsersState :=
  let idv := parseIntJS s.deleteId
  if idFalsy idv then
    { s with alerts := s.alerts ++ ["Please enter a User ID"] }
  else if confirmOk then
    let idn := idv.getD 0
    let s1 : UsersState :=
      { s with requests := s.requests ++ [⟨usersURL ++ "/" ++ toString idn, "DELETE", none⟩] }
    match f1 with
    | .netErr =>
      uCatch ("Error deleting user: " ++ netFailMsg) ("Failed to delete user: " ++ netFailMsg) s1
    | .resp ok body =>
      if ok then
        let s2 : UsersState :=
          { s1 with logs := s1.logs ++ ["Deleted user ID " ++ toString idn],
                    deleteId := "" }
        let s3 := loadUsers f2 s2
        { s3 with alerts := s3.alerts ++
            ["User ID " ++ toString idn ++ " deleted successfully!"] }
      else
        match body with
        | none =>
          uCatch ("Error deleting user: " ++ parseFailMsg) ("Failed to delete user: " ++ parseFailMsg) s1
        | some errJ =>
          let m := errDetail errJ "Failed to delete user"
          uCatch ("Error deleting user: " ++ m) ("Failed to delete user: " ++ m) s1
  else s

/- ==================== Handler invocation sequences ==================== -/

/-- One user-triggered handler invocation of the books client, together with
the environment's answers to the fetches it may perform. -/
inductive BookAct where
  | load (f : Fetch)
  | create (f1 f2 : Fetch)
  | update (f1 f2 : Fetch)
  | delHighest (c : Bool) (f1 f2 : Fetch)
  | search (f : Fetch)
  | clearS (f : Fetch)

/-- The fetch outcomes an invocation can observe. -/
def BookAct.fetches : BookAct → List Fetch
  | .load f => [f]
  | .create f1 f2 => [f1, f2]
  | .update f1 f2 => [f1, f2]
  | .delHighest _ f1 f2 => [f1, f2]
  | .search f => [f]
  | .clearS f => [f]

/-- Run one books-client handler. -/
def bookStep : BookAct → BooksState → BooksState
  | .load f, s => loadBooks f s
  | .create f1 f2, s => createBook f1 f2 s
  | .update f1 f2, s => updateBook f1 f2 s
  | .delHighest c f1 f2, s => deleteHighestBook c f1 f2 s
  | .search f, s => searchBooks f s
  | .clearS f, s => clearSearch f s

/-- Run a sequence of books-client handler invocations. -/
def bookRun : List BookAct → BooksState → BooksState
  | [], s => s
  | a :: rest, s => bookRun rest (bookStep a s)

/-- One user-triggered handler invocation of the users client. -/
inductive UserAct where
  | load (f : Fetch)
  | create (f1 f2 : Fetch)
  | update (f1 f2 : Fetch)
  | del (c : Bool) (f1 f2 : Fetch)

/-- The fetch outcomes an invocation can observe. -/
def UserAct.fetches : UserAct → List Fetch
  | .load f => [f]
  | .create f1 f2 => [f1, f2]
  | .update f1 f2 => [f1, f2]
  | .del _ f1 f2 => [f1, f2]

/-- Run one users-client handler. -/
def userStep : UserAct → UsersState → UsersState
  | .load f, s => loadUsers f s
  | .create f1 f2, s => createUser f1 f2 s
  | .update f1 f2, s => updateUser f1 f2 s
  | .del c f1 f2, s => deleteUser c f1 f2 s

/-- Run a sequence of users-client handler invocations. -/
def userRun : List UserAct → UsersState → UsersState
  | [], s => s
  | a :: rest, s => userRun rest (userStep a s)

/- ==================== Helper lemmas ==================== -/

theorem loadBooks_fail_tableBody (f : Fetch) (s : BooksState) (h : f.isFail = true) :
    (loadBooks f s).tableBody = s.tableBody := by
  cases f with
  | netErr => simp [loadBooks, bCatch]
  | resp ok body => cases ok <;> cases body <;> simp_all [Fetch.isFail, loadBooks, bCatch]

theorem createBook_fail_tableBody (f1 f2 : Fetch) (s : BooksState)
    (h1 : f1.isFail = true) :
    (createBook f1 f2 s).tableBody = s.tableBody := by
  by_cases hv : jsTrim s.createTitle = "" ∨ jsTrim s.createAuthor = ""
  · simp [createBook, hv]
  · cases f1 with
    | netErr => simp [createBook, hv, bCatch]
    | resp ok body =>
      cases ok <;> cases body <;> simp_all [Fetch.isFail, createBook, bCatch]

theorem updateBook_fail_tableBody (f1 f2 : Fetch) (s : BooksState)
    (h1 : f1.isFail = true) :
    (updateBook f1 f2 s).tableBody = s.tableBody := by
  by_cases hv : idFalsy (parseIntJS s.updateId) ∨ jsTrim s.updateTitle = "" ∨ jsTrim s.updateAuthor = ""
  · simp [updateBook, hv]
  · cases f1 with
    | netErr => simp [updateBook, hv, bCatch]
    | resp ok body =>
      cases ok <;> cases body <;> simp_all [Fetch.isFail, updateBook, bCatch]

theorem deleteHighestBook_fail_tableBody (c : Bool) (f1 f2 : Fetch) (s : BooksState)
    (h1 : f1.isFail = true) (h2 : f2.isFail = true) :
    (deleteHighestBook c f1 f2 s).tableBody = s.tableBody := by
  cases c with
  | false => simp [deleteHighestBook]
  | true =>
    cases f1 with
    | netErr => simp [deleteHighestBook, bCatch]
    | resp ok body =>
      cases ok with
      | false => cases body <;> simp_all [Fetch.isFail, deleteHighestBook, bCatch]
      | true => simp [deleteHighestBook, bCatch, loadBooks_fail_tableBody, h2]

theorem searchBooks_fail_tableBody (f : Fetch) (s : BooksState) (h : f.isFail = true) :
    (searchBooks f s).tableBody = s.tableBody := by
  by_cases hv : jsTrim s.searchInput = ""
  · simp [searchBooks, hv]
  · cases f with
    | netErr => simp [searchBooks, hv, bCatch]
    | resp ok body =>
      cases ok <;> cases body <;> simp_all [Fetch.isFail, searchBooks, bCatch]

theorem clearSearch_fail_tableBody (f : Fetch) (s : BooksState) (h : f.isFail = true) :
    (clearSearch f s).tableBody = s.tableBody := by
  unfold clearSearch
  rw [loadBooks_fail_tableBody f _ h]

theorem loadUsers_fail_tableBody (f : Fetch) (s : UsersState) (h : f.isFail = true) :
    (loadUsers f s).tableBody = s.tableBody := by
  cases f with
  | netErr => simp [loadUsers, uCatch]
  | resp ok body => cases ok <;> cases body <;> simp_all [Fetch.isFail, loadUsers, uCatch]

theorem createUser_fail_tableBody (f1 f2 : Fetch) (s : UsersState)
    (h1 : f1.isFail = true) :
    (createUser f1 f2 s).tableBody = s.tableBody := by
  by_cases hv : jsTrim s.createName = ""
  · simp [createUser, hv]
  · cases f1 with
    | netErr => simp [createUser, hv, uCatch]
    | resp ok body =>
      cases ok <;> cases body <;> simp_all [Fetch.isFail, createUser, uCatch]

theorem updateUser_fail_tableBody (f1 f2 : Fetch) (s : UsersState)
    (h1 : f1.isFail = true) :
    (updateUser f1 f2 s).tableBody = s.tableBody := by
  by_cases hv : idFalsy (parseIntJS s.updateId) ∨ jsTrim s.updateName = ""
  · simp [updateUser, hv]
  · cases f1 with
    | netErr => simp [updateUser, hv, uCatch]
    | resp ok body =>
      cases ok <;> cases body <;> simp_all [Fetch.isFail, updateUser, uCatch]

theorem deleteUser_fail_tableBody (c : Bool) (f1 f2 : Fetch) (s : UsersState)
    (h1 : f1.isFail = true) (h2 : f2.isFail = true) :
    (deleteUser c f1 f2 s).tableBody = s.tableBody := by
  by_cases hv : idFalsy (parseIntJS s.deleteId)
  · simp [deleteUser, hv]
  · cases c with
    | false => simp [deleteUser, hv]
    | true =>
      cases f1 with
      | netErr => simp [deleteUser, hv, uCatch]
      | resp ok body =>
        cases ok with
        | false => cases body <;> simp_all [Fetch.isFail, deleteUser, uCatch]
        | true => simp [deleteUser, hv, uCatch, loadUsers_fail_tableBody, h2]

theorem bookStep_fail_tableBody (a : BookAct) (s : BooksState)
    (h : ∀ f ∈ a.fetches, f.isFail = true) :
    (bookStep a s).tableBody = s.tableBody := by
  cases a with
  | load f => exact loadBooks_fail_tableBody f s (h f (by simp [BookAct.fetches]))
  | create f1 f2 => exact createBook_fail_tableBody f1 f2 s (h f1 (by simp [BookAct.fetches]))
  | update f1 f2 => exact updateBook_fail_tableBody f1 f2 s (h f1 (by simp [BookAct.fetches]))
  | delHighest c f1 f2 =>
    exact deleteHighestBook_fail_tableBody c f1 f2 s
      (h f1 (by simp [BookAct.fetches])) (h f2 (by simp [BookAct.fetches]))
  | search f => exact searchBooks_fail_tableBody f s (h f (by simp [BookAct.fetches]))
  | clearS f => exact clearSearch_fail_tableBody f s (h f (by simp [BookAct.fetches]))

theorem bookRun_fail_tableBody (acts : List BookAct) (s : BooksState)
    (h : ∀ a ∈ acts, ∀ f ∈ BookAct.fetches a, f.isFail = true) :
    (bookRun acts s).tableBody = s.tableBody := by
  induction acts generalizing s with
  | nil => rfl
  | cons a rest ih =>
    rw [bookRun, ih (bookStep a s) (fun b hb => h b (List.mem_cons_of_mem a hb)),
      bookStep_fail_tableBody a s (h a (List.mem_cons_self a rest))]

theorem userStep_fail_tableBody (a : UserAct) (s : UsersState)
    (h : ∀ f ∈ a.fetches, f.isFail = true) :
    (userStep a s).tableBody = s.tableBody := by
  cases a with
  | load f => exact loadUsers_fail_tableBody f s (h f (by simp [UserAct.fetches]))
  | create f1 f2 => exact createUser_fail_tableBody f1 f2 s (h f1 (by simp [UserAct.fetches]))
  | update f1 f2 => exact updateUser_fail_tableBody f1 f2 s (h f1 (by simp [UserAct.fetches]))
  | del c f1 f2 =>
    exact deleteUser_fail_tableBody c f1 f2 s
      (h f1 (by simp [UserAct.fetches])) (h f2 (by simp [UserAct.fetches]))

theorem userRun_fail_tableBody (acts : List UserAct) (s : UsersState)
    (h : ∀ a ∈ acts, ∀ f ∈ UserAct.fetches a, f.isFail = true) :
    (userRun acts s).tableBody = s.tableBody := by
  induction acts generalizing s with
  | nil => rfl
  | cons a rest ih =>
    rw [userRun, ih (userStep a s) (fun b hb => h b (List.mem_cons_of_mem a hb)),
      userStep_fail_tableBody a s (h a (List.mem_cons_self a rest))]

theorem loadBooks_requests (f : Fetch) (s : BooksState) :
    (loadBooks f s).requests = s.requests ++ [getBooksReq] := by
  cases f with
  | netErr => rfl
  | resp ok body =>
    cases ok with
    | false => cases body <;> rfl
    | true =>
      cases body with
      | none => rfl
      | some j => cases j <;> rfl

theorem loadBooks_inputs (f : Fetch) (s : BooksState) :
    (loadBooks f s).createTitle = s.createTitle ∧
    (loadBooks f s).createAuthor = s.createAuthor ∧
    (loadBooks f s).updateId = s.updateId ∧
    (loadBooks f s).updateTitle = s.updateTitle ∧
    (loadBooks f s).updateAuthor = s.updateAuthor ∧
    (loadBooks f s).searchInput = s.searchInput := by
  cases f with
  | netErr => exact ⟨rfl, rfl, rfl, rfl, rfl, rfl⟩
  | resp ok body =>
    cases ok with
    | false => cases body <;> exact ⟨rfl, rfl, rfl, rfl, rfl, rfl⟩
    | true =>
      cases body with
      | none => exact ⟨rfl, rfl, rfl, rfl, rfl, rfl⟩
      | some j => cases j <;> exact ⟨rfl, rfl, rfl, rfl, rfl, rfl⟩

theorem loadBooks_good_render (items : List JVal) (s : BooksState) :
    (loadBooks (.resp true (some (.jarr items))) s).tableBody = items.map bookRow := rfl

theorem loadBooks_fail_eq (f : Fetch) (s : BooksState) (h : f.isFail = true) :
    ∃ m, loadBooks f s =
      { s with requests := s.requests ++ [getBooksReq],
               logs := s.logs ++ [m],
               alerts := s.alerts ++ ["Failed to load books"] } := by
  cases f with
  | netErr => exact ⟨"Error loading books: " ++ netFailMsg, rfl⟩
  | resp ok body =>
    cases ok with
    | false =>
      cases body <;> exact ⟨"Error loading books: " ++ "Failed to fetch books", rfl⟩
    | true =>
      cases body with
      | none => exact ⟨"Error loading books: " ++ parseFailMsg, rfl⟩
      | some j => simp [Fetch.isFail] at h

theorem loadUsers_requests (f : Fetch) (s : UsersState) :
    (loadUsers f s).requests = s.requests ++ [getUsersReq] := by
  cases f with
  | netErr => rfl
  | resp ok body =>
    cases ok with
    | false => cases body <;> rfl
    | true =>
      cases body with
      | none => rfl
      | some j => cases j <;> rfl

theorem loadUsers_inputs (f : Fetch) (s : UsersState) :
    (loadUsers f s).createName = s.createName ∧
    (loadUsers f s).updateId = s.updateId ∧
    (loadUsers f s).updateName = s.updateName ∧
    (loadUsers f s).deleteId = s.deleteId := by
  cases f with
  | netErr => exact ⟨rfl, rfl, rfl, rfl⟩
  | resp ok body =>
    cases ok with
    | false => cases body <;> exact ⟨rfl, rfl, rfl, rfl⟩
    | true =>
      cases body with
      | none => exact ⟨rfl, rfl, rfl, rfl⟩
      | some j => cases j <;> exact ⟨rfl, rfl, rfl, rfl⟩

theorem loadUsers_good_render (items : List JVal) (s : UsersState) :
    (loadUsers (.resp true (some (.jarr items))) s).tableBody = items.map userRow := rfl

theorem loadUsers_fail_eq (f : Fetch) (s : UsersState) (h : f.isFail = true) :
    ∃ m, loadUsers f s =
      { s with requests := s.requests ++ [getUsersReq],
               logs := s.logs ++ [m],
               alerts := s.alerts ++ ["Failed to load users"] } := by
  cases f with
  | netErr => exact ⟨"Error loading users: " ++ netFailMsg, rfl⟩
  | resp ok body =>
    cases ok with
    | false =>
      cases body <;> exact ⟨"Error loading users: " ++ "Failed to fetch users", rfl⟩
    | true =>
      cases body with
      | none => exact ⟨"Error loading users: " ++ parseFailMsg, rfl⟩
      | some j => simp [Fetch.isFail] at h

/- ==================== Claim theorems ==================== -/

/-- Sample books-page state used by witnesses. -/
def bSample : BooksState :=
  ⟨[["1", "Dune", "Herbert"]], "", "", "", "", "", "", [], [], []⟩

/-- Sample users-page state used by witnesses. -/
def uSample : UsersState :=
  ⟨[["1", "Alice"]], "", "", "", "", [], [], []⟩

/-- C1: over every sequence of handler invocations in either client in which
every fetch outcome is one of the spec's error modes (network failure,
non-2xx status, malformed JSON), the table body content is unchanged: no
error path ever mutates the table body; it changes only on a successful
render. -/
theorem c1_error_paths_never_mutate_table :
    (∀ (acts : List BookAct) (s : BooksState),
      (∀ a ∈ acts, ∀ f ∈ BookAct.fetches a, f.isFail = true) →
      (bookRun acts s).tableBody = s.tableBody) ∧
    (∀ (acts : List UserAct) (s : UsersState),
      (∀ a ∈ acts, ∀ f ∈ UserAct.fetches a, f.isFail = true) →
      (userRun acts s).tableBody = s.tableBody) :=
  ⟨bookRun_fail_tableBody, userRun_fail_tableBody⟩

/-- Witness for C1 at a concrete invocation sequence and state. -/
theorem c1_witness :
    (bookRun [BookAct.load Fetch.netErr,
              BookAct.create (Fetch.resp false none) Fetch.netErr,
              BookAct.search (Fetch.resp true none)] bSample).tableBody
      = bSample.tableBody :=
  c1_error_paths_never_mutate_table.1 _ _ (by decide)

/-- C2: a create invocation with an empty (after trimming) required field
only alerts: the state change is exactly one appended alert, so no request
is issued and nothing else changes. -/
theorem c2_create_empty_fields_no_request :
    (∀ (f1 f2 : Fetch) (s : BooksState),
      jsTrim s.createTitle = "" ∨ jsTrim s.createAuthor = "" →
      createBook f1 f2 s =
        { s with alerts := s.alerts ++ ["Please enter both a book title and an author name"] }) ∧
    (∀ (f1 f2 : Fetch) (s : UsersState),
      jsTrim s.createName = "" →
      createUser f1 f2 s =
        { s with alerts := s.alerts ++ ["Please enter a user name"] }) := by
  constructor
  · intro f1 f2 s h
    have h' : (jsTrim s.createTitle = "" ∨ jsTrim s.createAuthor = "") = True := eq_true h
    simp [createBook, h']
  · intro f1 f2 s h
    simp [createUser, h]

/-- Witness for C2 at a concrete state with a whitespace-only title. -/
theorem c2_witness :
    createBook Fetch.netErr Fetch.netErr
        { bSample with createTitle := "   ", createAuthor := "Herbert" } =
      { bSample with createTitle := "   ", createAuthor := "Herbert",
                     alerts := bSample.alerts ++ ["Please enter both a book title and an author name"] } :=
  c2_create_empty_fields_no_request.1 Fetch.netErr Fetch.netErr _ (Or.inl (by decide))

/-- C4: a loader invocation whose fetch ends in one of the three failure
modes leaves the table body in its prior state, writes one console entry and
shows the fixed failure alert. -/
theorem c4_loader_failure_uniform :
    (∀ (f : Fetch) (s : BooksState), f.isFail = true →
      (loadBooks f s).tableBody = s.tableBody ∧
      (∃ m, (loadBooks f s).logs = s.logs ++ [m]) ∧
      (loadBooks f s).alerts = s.alerts ++ ["Failed to load books"]) ∧
    (∀ (f : Fetch) (s : UsersState), f.isFail = true →
      (loadUsers f s).tableBody = s.tableBody ∧
      (∃ m, (loadUsers f s).logs = s.logs ++ [m]) ∧
      (loadUsers f s).alerts = s.alerts ++ ["Failed to load users"]) := by
  constructor
  · intro f s h
    obtain ⟨m, hm⟩ := loadBooks_fail_eq f s h
    rw [hm]
    exact ⟨rfl, ⟨m, rfl⟩, rfl⟩
  · intro f s h
    obtain ⟨m, hm⟩ := loadUsers_fail_eq f s h
    rw [hm]
    exact ⟨rfl, ⟨m, rfl⟩, rfl⟩

/-- Witness for C4 at a network failure on the users loader. -/
theorem c4_witness :
    (loadUsers Fetch.netErr uSample).tableBody = uSample.tableBody ∧
    (∃ m, (loadUsers Fetch.netErr uSample).logs = uSample.logs ++ [m]) ∧
    (loadUsers Fetch.netErr uSample).alerts = uSample.alerts ++ ["Failed to load users"] :=
  c4_loader_failure_uniform.2 Fetch.netErr uSample (by decide)

/-- C5: the renderers clear the table body and append exactly one row per
record in the array's order (the result does not depend on the prior body);
an empty array leaves zero rows. -/
theorem c5_renderer_one_row_per_record :
    (∀ (items : List JVal) (tb : List (List String)),
      (displayBooks (.jarr items) tb).1 = items.map bookRow) ∧
    (∀ (items : List JVal) (tb : List (List String)),
      (displayUsers (.jarr items) tb).1 = items.map userRow) ∧
    (∀ tb : List (List String), (displayBooks (.jarr []) tb).1 = []) ∧
    (∀ tb : List (List String), (displayUsers (.jarr []) tb).1 = []) :=
  ⟨fun _ _ => rfl, fun _ _ => rfl, fun _ => rfl, fun _ => rfl⟩

/-- C6: rendering the same array twice in succession yields the same final
table body as rendering it once. -/
theorem c6_renderer_idempotent :
    (∀ (items : List JVal) (tb : List (List String)),
      (displayBooks (.jarr items) (displayBooks (.jarr items) tb).1).1
        = (displayBooks (.jarr items) tb).1) ∧
    (∀ (items : List JVal) (tb : List (List String)),
      (displayUsers (.jarr items) (displayUsers (.jarr items) tb).1).1
        = (displayUsers (.jarr items) tb).1) :=
  ⟨fun _ _ => rfl, fun _ _ => rfl⟩

/-- C10: when the confirmation dialog is declined, the delete handlers
return with the state exactly as it was: no request, no DOM change (for the
users client, after its identifier validates). -/
theorem c10_declined_confirm_is_noop :
    (∀ (f1 f2 : Fetch) (s : BooksState), deleteHighestBook false f1 f2 s = s) ∧
    (∀ (f1 f2 : Fetch) (s : UsersState) (n : Int),
      parseIntJS s.deleteId = some n → n ≠ 0 →
      deleteUser false f1 f2 s = s) := by
  constructor
  · intro f1 f2 s
    rfl
  · intro f1 f2 s n hn hnz
    have hv : ¬ idFalsy (parseIntJS s.deleteId) := by simp [idFalsy, hn, hnz]
    simp [deleteUser, eq_false hv]

/-- Witness for C10 at a concrete validated identifier. -/
theorem c10_witness :
    deleteUser false Fetch.netErr Fetch.netErr { uSample with deleteId := "7" }
      = { uSample with deleteId := "7" } :=
  c10_declined_confirm_is_noop.2 Fetch.netErr Fetch.netErr _ 7 (by decide) (by decide)

/-- C3: every create/update/delete invocation whose own HTTP request
succeeds (2xx, with a parseable body wherever the handler reads one)
extends the request trace by exactly the operation request followed by one
GET to the collection endpoint — exactly one reload — and when that reload
responds with an array the table is re-rendered from it. -/
theorem c3_success_exactly_one_reload :
    (∀ (f2 : Fetch) (j : JVal) (s : BooksState),
      jsTrim s.createTitle ≠ "" → jsTrim s.createAuthor ≠ "" →
      (createBook (.resp true (some j)) f2 s).requests =
        s.requests ++ [⟨booksURL, "POST",
          some (stringifyBook (jsTrim s.createTitle) (jsTrim s.createAuthor))⟩, getBooksReq] ∧
      (∀ items, f2 = .resp true (some (.jarr items)) →
        (createBook (.resp true (some j)) f2 s).tableBody = items.map bookRow)) ∧
    (∀ (f2 : Fetch) (j : JVal) (s : BooksState) (n : Int),
      parseIntJS s.updateId = some n → n ≠ 0 →
      jsTrim s.updateTitle ≠ "" → jsTrim s.updateAuthor ≠ "" →
      (updateBook (.resp true (some j)) f2 s).requests =
        s.requests ++ [⟨booksURL ++ "/" ++ toString n, "PUT",
          some (stringifyBook (jsTrim s.updateTitle) (jsTrim s.updateAuthor))⟩, getBooksReq] ∧
      (∀ items, f2 = .resp true (some (.jarr items)) →
        (updateBook (.resp true (some j)) f2 s).tableBody = items.map bookRow)) ∧
    (∀ (f2 : Fetch) (b : Option JVal) (s : BooksState),
      (deleteHighestBook true (.resp true b) f2 s).requests =
        s.requests ++ [⟨booksURL ++ "/highest", "DELETE", none⟩, getBooksReq] ∧
      (∀ items, f2 = .resp true (some (.jarr items)) →
        (deleteHighestBook true (.resp true b) f2 s).tableBody = items.map bookRow)) ∧
    (∀ (f2 : Fetch) (j : JVal) (s : UsersState),
      jsTrim s.createName ≠ "" →
      (createUser (.resp true (some j)) f2 s).requests =
        s.requests ++ [⟨usersURL, "POST", some (stringifyUser (jsTrim s.createName))⟩, getUsersReq] ∧
      (∀ items, f2 = .resp true (some (.jarr items)) →
        (createUser (.resp true (some j)) f2 s).tableBody = items.map userRow)) ∧
    (∀ (f2 : Fetch) (j : JVal) (s : UsersState) (n : Int),
      parseIntJS s.updateId = some n → n ≠ 0 → jsTrim s.updateName ≠ "" →
      (updateUser (.resp true (some j)) f2 s).requests =
        s.requests ++ [⟨usersURL ++ "/" ++ toString n, "PUT",
          some (stringifyUser (jsTrim s.updateName))⟩, getUsersReq] ∧
      (∀ items, f2 = .resp true (some (.jarr items)) →
        (updateUser (.resp true (some j)) f2 s).tableBody = items.map userRow)) ∧
    (∀ (f2 : Fetch) (b : Option JVal) (s : UsersState) (n : Int),
      parseIntJS s.deleteId = some n → n ≠ 0 →
      (deleteUser true (.resp true b) f2 s).requests =
        s.requests ++ [⟨usersURL ++ "/" ++ toString n, "DELETE", none⟩, getUsersReq] ∧
      (∀ items, f2 = .resp true (some (.jarr items)) →
        (deleteUser true (.resp true b) f2 s).tableBody = items.map userRow)) := by
  refine ⟨?_, ?_, ?_, ?_, ?_, ?_⟩
  · intro f2 j s ht ha
    have hv : (jsTrim s.createTitle = "" ∨ jsTrim s.createAuthor = "") = False := by
      simp [ht, ha]
    constructor
    · simp [createBook, hv, loadBooks_requests]
    · intro items hf2
      subst hf2
      simp [createBook, hv, loadBooks_good_render]
  · intro f2 j s n hid hnz ht ha
    have hv : (idFalsy (some n) ∨ jsTrim s.updateTitle = "" ∨
        jsTrim s.updateAuthor = "") = False := by
      simp [idFalsy, hnz, ht, ha]
    constructor
    · simp [updateBook, hv, hid, loadBooks_requests]
    · intro items hf2
      subst hf2
      simp [updateBook, hv, hid, loadBooks_good_render]
  · intro f2 b s
    constructor
    · simp [deleteHighestBook, loadBooks_requests]
    · intro items hf2
      subst hf2
      simp [deleteHighestBook, loadBooks_good_render]
  · intro f2 j s hn
    have hv : (jsTrim s.createName = "") = False := by simp [hn]
    constructor
    · simp [createUser, hv, loadUsers_requests]
    · intro items hf2
      subst hf2
      simp [createUser, hv, loadUsers_good_render]
  · intro f2 j s n hid hnz hname
    have hv : (idFalsy (some n) ∨ jsTrim s.updateName = "") = False := by
      simp [idFalsy, hnz, hname]
    constructor
    · simp [updateUser, hv, hid, loadUsers_requests]
    · intro items hf2
      subst hf2
      simp [updateUser, hv, hid, loadUsers_good_render]
  · intro f2 b s n hid hnz
    have hv : idFalsy (some n) = False := by simp [idFalsy, hnz]
    constructor
    · simp [deleteUser, hv, hid, loadUsers_requests]
    · intro items hf2
      subst hf2
      simp [deleteUser, hv, hid, loadUsers_good_render]

/-- A parsed created-book JSON body, for the C3 witness. -/
def sampleBookJson : JVal :=
  .jobj [("id", .jnum 5), ("title", .jstr "Dune"), ("author", .jstr "Herbert")]

/-- A books-page state with the create form filled in. -/
def bCreateReady : BooksState :=
  { bSample with createTitle := "Dune", createAuthor := "Herbert" }

/-- Witness for C3: a successful create issues the POST then exactly one
collection GET. -/
theorem c3_witness :
    (createBook (Fetch.resp true (some sampleBookJson))
        (Fetch.resp true (some (JVal.jarr []))) bCreateReady).requests =
      bCreateReady.requests ++ [⟨booksURL, "POST",
        some (stringifyBook (jsTrim bCreateReady.createTitle) (jsTrim bCreateReady.createAuthor))⟩,
        getBooksReq] :=
  (c3_success_exactly_one_reload.1 (Fetch.resp true (some (JVal.jarr [])))
    sampleBookJson bCreateReady (by decide) (by decide)).1

/-- C7: a search with a non-empty (after trimming) query issues exactly one
GET carrying the URL-encoded query and renders the returned set; clearing
the search empties the input and reloads the unfiltered full list. -/
theorem c7_search_encodes_query_and_clear_reloads :
    (∀ (f : Fetch) (s : BooksState), jsTrim s.searchInput ≠ "" →
      (searchBooks f s).requests = s.requests ++
        [⟨booksURL ++ "?search=" ++ encodeURIComponent (jsTrim s.searchInput), "GET", none⟩] ∧
      (∀ items, f = .resp true (some (.jarr items)) →
        (searchBooks f s).tableBody = items.map bookRow)) ∧
    (∀ (f : Fetch) (s : BooksState),
      (clearSearch f s).searchInput = "" ∧
      (clearSearch f s).requests = s.requests ++ [getBooksReq] ∧
      (∀ items, f = .resp true (some (.jarr items)) →
        (clearSearch f s).tableBody = items.map bookRow)) := by
  constructor
  · intro f s h
    have hv : (jsTrim s.searchInput = "") = False := eq_false h
    constructor
    · cases f with
      | netErr => simp [searchBooks, hv, bCatch]
      | resp ok body =>
        cases ok with
        | false => cases body <;> simp [searchBooks, hv, bCatch]
        | true =>
          cases body with
          | none => simp [searchBooks, hv, bCatch]
          | some j => cases j <;> simp [searchBooks, hv, bCatch, displayBooks]
    · intro items hf
      subst hf
      simp [searchBooks, hv, displayBooks]
  · intro f s
    refine ⟨(loadBooks_inputs f _).2.2.2.2.2, loadBooks_requests f _, ?_⟩
    intro items hf
    subst hf
    exact loadBooks_good_render items _

/-- Witness for C7: a concrete query with a space and a plus sign. -/
theorem c7_witness :
    (searchBooks Fetch.netErr { bSample with searchInput := " C++ guide " }).requests =
      { bSample with searchInput := " C++ guide " }.requests ++
        [⟨booksURL ++ "?search=" ++
          encodeURIComponent (jsTrim { bSample with searchInput := " C++ guide " }.searchInput),
          "GET", none⟩] :=
  (c7_search_encodes_query_and_clear_reloads.1 Fetch.netErr
    { bSample with searchInput := " C++ guide " } (by decide)).1

/-- C8: the update handlers parse the identifier input with parseInt and
issue the PUT only when the result is truthy (non-NaN, non-zero) and every
new field value is non-empty after trimming; otherwise the state change is
exactly one appended alert (no network call). -/
theorem c8_update_validation_gate :
    (∀ (f1 f2 : Fetch) (s : BooksState),
      (idFalsy (parseIntJS s.updateId) ∨ jsTrim s.updateTitle = "" ∨ jsTrim s.updateAuthor = "" →
        updateBook f1 f2 s =
          { s with alerts := s.alerts ++ ["Please enter the Book ID, new title, and new author"] }) ∧
      (∀ n : Int, parseIntJS s.updateId = some n → n ≠ 0 →
        jsTrim s.updateTitle ≠ "" → jsTrim s.updateAuthor ≠ "" →
        ∃ tail, (updateBook f1 f2 s).requests =
          s.requests ++ ⟨booksURL ++ "/" ++ toString n, "PUT",
            some (stringifyBook (jsTrim s.updateTitle) (jsTrim s.updateAuthor))⟩ :: tail)) ∧
    (∀ (f1 f2 : Fetch) (s : UsersState),
      (idFalsy (parseIntJS s.updateId) ∨ jsTrim s.updateName = "" →
        updateUser f1 f2 s =
          { s with alerts := s.alerts ++ ["Please enter both User ID and new name"] }) ∧
      (∀ n : Int, parseIntJS s.updateId = some n → n ≠ 0 → jsTrim s.updateName ≠ "" →
        ∃ tail, (updateUser f1 f2 s).requests =
          s.requests ++ ⟨usersURL ++ "/" ++ toString n, "PUT",
            some (stringifyUser (jsTrim s.updateName))⟩ :: tail)) := by
  constructor
  · intro f1 f2 s
    constructor
    · intro h
      simp [updateBook, eq_true h]
    · intro n hid hnz ht ha
      have hv : (idFalsy (some n) ∨ jsTrim s.updateTitle = "" ∨
          jsTrim s.updateAuthor = "") = False := by
        simp [idFalsy, hnz, ht, ha]
      cases f1 with
      | netErr => exact ⟨[], by simp [updateBook, hv, hid, bCatch]⟩
      | resp ok body =>
        cases ok with
        | false => cases body <;> exact ⟨[], by simp [updateBook, hv, hid, bCatch]⟩
        | true =>
          cases body with
          | none => exact ⟨[], by simp [updateBook, hv, hid, bCatch]⟩
          | some j => exact ⟨[getBooksReq], by simp [updateBook, hv, hid, loadBooks_requests]⟩
  · intro f1 f2 s
    constructor
    · intro h
      simp [updateUser, eq_true h]
    · intro n hid hnz hname
      have hv : (idFalsy (some n) ∨ jsTrim s.updateName = "") = False := by
        simp [idFalsy, hnz, hname]
      cases f1 with
      | netErr => exact ⟨[], by simp [updateUser, hv, hid, uCatch]⟩
      | resp ok body =>
        cases ok with
        | false => cases body <;> exact ⟨[], by simp [updateUser, hv, hid, uCatch]⟩
        | true =>
          cases body with
          | none => exact ⟨[], by simp [updateUser, hv, hid, uCatch]⟩
          | some j => exact ⟨[getUsersReq], by simp [updateUser, hv, hid, loadUsers_requests]⟩

/-- Witness for C8: a NaN identifier ("abc") aborts the users update with an
alert and no request. -/
theorem c8_witness :
    updateUser Fetch.netErr Fetch.netErr
        { uSample with updateId := "abc", updateName := "Bob" } =
      { uSample with updateId := "abc", updateName := "Bob",
                     alerts := uSample.alerts ++ ["Please enter both User ID and new name"] } :=
  (c8_update_validation_gate.2 Fetch.netErr Fetch.netErr
    { uSample with updateId := "abc", updateName := "Bob" }).1 (Or.inl (by decide))

/-- C9: form inputs are cleared exactly on the success path: a validation
failure or a caught request error leaves every input field unchanged, and
the success path resets the handler's input fields to the empty string. -/
theorem c9_inputs_cleared_only_on_success :
    (∀ (f1 f2 : Fetch) (s : BooksState),
      (jsTrim s.createTitle = "" ∨ jsTrim s.createAuthor = "" →
        (createBook f1 f2 s).createTitle = s.createTitle ∧
        (createBook f1 f2 s).createAuthor = s.createAuthor) ∧
      (f1.isFail = true →
        (createBook f1 f2 s).createTitle = s.createTitle ∧
        (createBook f1 f2 s).createAuthor = s.createAuthor) ∧
      (∀ j, f1 = .resp true (some j) →
        jsTrim s.createTitle ≠ "" → jsTrim s.createAuthor ≠ "" →
        (createBook f1 f2 s).createTitle = "" ∧ (createBook f1 f2 s).createAuthor = "")) ∧
    (∀ (f1 f2 : Fetch) (s : BooksState),
      (idFalsy (parseIntJS s.updateId) ∨ jsTrim s.updateTitle = "" ∨ jsTrim s.updateAuthor = "" →
        (updateBook f1 f2 s).updateId = s.updateId ∧
        (updateBook f1 f2 s).updateTitle = s.updateTitle ∧
        (updateBook f1 f2 s).updateAuthor = s.updateAuthor) ∧
      (f1.isFail = true →
        (updateBook f1 f2 s).updateId = s.updateId ∧
        (updateBook f1 f2 s).updateTitle = s.updateTitle ∧
        (updateBook f1 f2 s).updateAuthor = s.updateAuthor) ∧
      (∀ j, f1 = .resp true (some j) →
        ¬(idFalsy (parseIntJS s.updateId) ∨ jsTrim s.updateTitle = "" ∨ jsTrim s.updateAuthor = "") →
        (updateBook f1 f2 s).updateId = "" ∧
        (updateBook f1 f2 s).updateTitle = "" ∧
        (updateBook f1 f2 s).updateAuthor = "")) ∧
    (∀ (f1 f2 : Fetch) (s : UsersState),
      (jsTrim s.createName = "" →
        (createUser f1 f2 s).createName = s.createName) ∧
      (f1.isFail = true →
        (createUser f1 f2 s).createName = s.createName) ∧
      (∀ j, f1 = .resp true (some j) → jsTrim s.createName ≠ "" →
        (createUser f1 f2 s).createName = "")) ∧
    (∀ (f1 f2 : Fetch) (s : UsersState),
      (idFalsy (parseIntJS s.updateId) ∨ jsTrim s.updateName = "" →
        (updateUser f1 f2 s).updateId = s.updateId ∧
        (updateUser f1 f2 s).updateName = s.updateName) ∧
      (f1.isFail = true →
        (updateUser f1 f2 s).updateId = s.updateId ∧
        (updateUser f1 f2 s).updateName = s.updateName) ∧
      (∀ j, f1 = .resp true (some j) →
        ¬(idFalsy (parseIntJS s.updateId) ∨ jsTrim s.updateName = "") →
        (updateUser f1 f2 s).updateId = "" ∧ (updateUser f1 f2 s).updateName = "")) ∧
    (∀ (c : Bool) (f1 f2 : Fetch) (s : UsersState),
      (idFalsy (parseIntJS s.deleteId) →
        (deleteUser c f1 f2 s).deleteId = s.deleteId) ∧
      (f1 = .netErr ∨ (∃ b, f1 = .resp false b) →
        (deleteUser c f1 f2 s).deleteId = s.deleteId) ∧
      (∀ b, f1 = .resp true b → c = true → ¬ idFalsy (parseIntJS s.deleteId) →
        (deleteUser c f1 f2 s).deleteId = "")) := by
  refine ⟨?_, ?_, ?_, ?_, ?_⟩
  · intro f1 f2 s
    refine ⟨?_, ?_, ?_⟩
    · intro h
      simp [createBook, eq_true h]
    · intro h
      by_cases hv : jsTrim s.createTitle = "" ∨ jsTrim s.createAuthor = ""
      · simp [createBook, eq_true hv]
      · cases f1 with
        | netErr => simp [createBook, eq_false hv, bCatch]
        | resp ok body =>
          cases ok <;> cases body <;>
            simp_all [Fetch.isFail, createBook, eq_false hv, bCatch]
    · intro j hf ht ha
      subst hf
      have hv : (jsTrim s.createTitle = "" ∨ jsTrim s.createAuthor = "") = False := by
        simp [ht, ha]
      simp [createBook, hv, loadBooks_inputs]
  · intro f1 f2 s
    refine ⟨?_, ?_, ?_⟩
    · intro h
      simp [updateBook, eq_true h]
    · intro h
      by_cases hv : idFalsy (parseIntJS s.updateId) ∨ jsTrim s.updateTitle = "" ∨
          jsTrim s.updateAuthor = ""
      · simp [updateBook, eq_true hv]
      · cases f1 with
        | netErr => simp [updateBook, eq_false hv, bCatch]
        | resp ok body =>
          cases ok <;> cases body <;>
            simp_all [Fetch.isFail, updateBook, eq_false hv, bCatch]
    · intro j hf hv
      subst hf
      simp [updateBook, eq_false hv, loadBooks_inputs]
  · intro f1 f2 s
    refine ⟨?_, ?_, ?_⟩
    · intro h
      simp [createUser, h]
    · intro h
      by_cases hv : jsTrim s.createName = ""
      · simp [createUser, eq_true hv]
      · cases f1 with
        | netErr => simp [createUser, eq_false hv, uCatch]
        | resp ok body =>
          cases ok <;> cases body <;>
            simp_all [Fetch.isFail, createUser, eq_false hv, uCatch]
    · intro j hf hn
      subst hf
      have hv : (jsTrim s.createName = "") = False := by simp [hn]
      simp [createUser, hv, loadUsers_inputs]
  · intro f1 f2 s
    refine ⟨?_, ?_, ?_⟩
    · intro h
      simp [updateUser, eq_true h]
    · intro h
      by_cases hv : idFalsy (parseIntJS s.updateId) ∨ jsTrim s.updateName = ""
      · simp [updateUser, eq_true hv]
      · cases f1 with
        | netErr => simp [updateUser, eq_false hv, uCatch]
        | resp ok body =>
          cases ok <;> cases body <;>
            simp_all [Fetch.isFail, updateUser, eq_false hv, uCatch]
    · intro j hf hv
      subst hf
      simp [updateUser, eq_false hv, loadUsers_inputs]
  · intro c f1 f2 s
    refine ⟨?_, ?_, ?_⟩
    · intro h
      simp [deleteUser, eq_true h]
    · intro h
      by_cases hv : idFalsy (parseIntJS s.deleteId)
      · simp [deleteUser, eq_true hv]
      · cases c with
        | false => simp [deleteUser, eq_false hv]
        | true =>
          rcases h with h | ⟨b, h⟩ <;> subst h
          · simp [deleteUser, eq_false hv, uCatch]
          · cases b <;> simp [deleteUser, eq_false hv, uCatch]
    · intro b hf hc hv
      subst hf
      subst hc
      simp [deleteUser, eq_false hv, loadUsers_inputs]

/-- Witness for C9: a failed (non-2xx) create leaves the title and author
inputs untouched. -/
theorem c9_witness :
    (createBook (Fetch.resp false none) Fetch.netErr bCreateReady).createTitle
        = bCreateReady.createTitle ∧
    (createBook (Fetch.resp false none) Fetch.netErr bCreateReady).createAuthor
        = bCreateReady.createAuthor :=
  (c9_inputs_cleared_only_on_success.1 (Fetch.resp false none) Fetch.netErr
    bCreateReady).2.1 (by decide)
